import Mathlib

/-!
Verification of the education-agent fallback orchestration
(`src/education_agent/agent.py`) by a shallow embedding.

The embedded code: `call_agent_async` (the invocation adapter reducing an
agent's event stream to a final text answer), `orchestrator` (the two-step
fallback on the `NO_DATA_FOUND` sentinel), and `call_agent` (the entry point
creating one fresh session per call).  External collaborators (the ADK
runners) are modelled as functions from (user id, session id, message) to the
event stream they emit; the randomness of `uuid4()` is modelled by passing
the generated identifier as a parameter.
-/

namespace EducationAgent

/-- `google.genai.types.Part`: the `text` field is `Optional[str]` in the
library, so a part may carry no text (Python `None`). -/
structure Part where
  text : Option String
deriving DecidableEq, Repr

/-- `google.genai.types.Content`: a role plus a list of parts. -/
structure Content where
  role : String
  parts : List Part
deriving DecidableEq, Repr

/-- An ADK event as consumed by `call_agent_async`: its (optional) content
and the boolean answered by `event.is_final_response()`. -/
structure Event where
  content : Option Content
  is_final_response : Bool
deriving DecidableEq, Repr

/-- A runner (`Runner(agent=..., app_name=..., session_service=...)`),
modelled by the event stream `runner.run_async(user_id, session_id,
new_message)` yields for given arguments. -/
abbrev Runner := String → String → Content → List Event

/-- Python `needle in hay` on lists of characters: `True` iff `needle`
occurs contiguously in `hay` (an empty needle is always found). -/
def pyInChars (needle : List Char) : List Char → Bool
  | [] => needle.isEmpty
  | c :: rest => needle.isPrefixOf (c :: rest) || pyInChars needle rest

/-- Python's substring test `needle in hay` on strings. -/
def pyIn (needle hay : String) : Bool :=
  pyInChars needle.toList hay.toList

/-- The sentinel token of the Data-Agent protocol. -/
def NO_DATA_FOUND : String := "NO_DATA_FOUND"

/-- The initial value of `final_response_text` in `call_agent_async`: the
fixed placeholder answer. -/
def no_final_default : String := "Agent did not produce a final response."

/-- `APP_NAME` from the module constants. -/
def APP_NAME : String := "education-orchestrator-app"

/-- The `async for` loop of `call_agent_async`, threading
`final_response_text`.  On the first event with `is_final_response()` true it
overwrites the text with `event.content.parts[0].text` when
`event.content and event.content.parts` is truthy (note: that text may be
Python `None`, i.e. `Option.none`), then breaks; later events are never
consumed.  A stream that ends without a final event returns the value
carried so far. -/
def final_response_loop (final_response_text : Option String) :
    List Event → Option String
  | [] => final_response_text
  | e :: rest =>
    if e.is_final_response then
      match e.content with
      | some c =>
        match c.parts with
        | p :: _ => p.text
        | [] => final_response_text
      | none => final_response_text
    else
      final_response_loop final_response_text rest

/-- `call_agent_async(query, runner, user_id, session_id)`: wraps the query
into a user-role single-text-part content, drives the runner's event stream,
and reduces it with `final_response_loop` starting from the placeholder.
Result `none` models the Python function returning `None` (a final event
whose first part has `text=None`). -/
def call_agent_async (query : String) (runner : Runner)
    (user_id session_id : String) : Option String :=
  let content : Content := ⟨"user", [⟨some query⟩]⟩
  final_response_loop (some no_final_default) (runner user_id session_id content)

/-- The prefix of an event stream actually consumed by the loop: every event
up to and including the first one with `is_final_response()` true. -/
def consumed_events : List Event → List Event
  | [] => []
  | e :: rest =>
    if e.is_final_response then [e] else e :: consumed_events rest

/-- The events `call_agent_async` consumes from its runner's stream. -/
def call_agent_async_consumed (query : String) (runner : Runner)
    (user_id session_id : String) : List Event :=
  let content : Content := ⟨"user", [⟨some query⟩]⟩
  consumed_events (runner user_id session_id content)

/-- `orchestrator(query, user_id, session_id)`: ask the Data-Agent; if its
answer contains the sentinel, ask the Search-Agent with the same query and
session and return its answer, otherwise return the Data-Agent's answer.
`Except.error ()` models the `TypeError` Python raises when
`"NO_DATA_FOUND" in data_response` is evaluated with `data_response = None`. -/
def orchestrator (query : String) (data_runner search_runner : Runner)
    (user_id session_id : String) : Except Unit (Option String) :=
  let data_response := call_agent_async query data_runner user_id session_id
  match data_response with
  | none => Except.error ()
  | some s =>
    if pyIn NO_DATA_FOUND s then
      Except.ok (call_agent_async query search_runner user_id session_id)
    else
      Except.ok (some s)

/-- Which of the two process-wide runners an invocation went to. -/
inductive AgentKind
  | data
  | search
deriving DecidableEq, Repr

/-- One call of `call_agent_async` as seen from the orchestrator: which
agent, with which query, under which user and session identifiers. -/
structure Invocation where
  agent : AgentKind
  query : String
  user_id : String
  session_id : String
deriving DecidableEq, Repr

/-- `orchestrator` instrumented with the list of agent invocations it
performs, in order.  Its first component is proved equal to
`orchestrator` below. -/
def orchestrator_trace (query : String) (data_runner search_runner : Runner)
    (user_id session_id : String) :
    Except Unit (Option String) × List Invocation :=
  let data_response := call_agent_async query data_runner user_id session_id
  let dataInv : Invocation := ⟨AgentKind.data, query, user_id, session_id⟩
  match data_response with
  | none => (Except.error (), [dataInv])
  | some s =>
    if pyIn NO_DATA_FOUND s then
      (Except.ok (call_agent_async query search_runner user_id session_id),
       [dataInv, ⟨AgentKind.search, query, user_id, session_id⟩])
    else
      (Except.ok (some s), [dataInv])

/-- An externally visible action of one top-level call: the session creation
against the session store, or an agent invocation. -/
inductive Action
  | create_session (app_name user_id session_id : String)
  | invoke (inv : Invocation)
deriving DecidableEq, Repr

/-- `call_agent(query)`: fixes `user_id = "webapp-user"`, takes the freshly
generated `uuid4()` value as `uuid`, creates the session, and runs the
orchestrator under that session. -/
def call_agent (query uuid : String) (data_runner search_runner : Runner) :
    Except Unit (Option String) :=
  let user_id := "webapp-user"
  let session_id := uuid
  orchestrator query data_runner search_runner user_id session_id

/-- `call_agent` instrumented with its ordered action trace: the
`create_session` call happens first, then the orchestrator's invocations. -/
def call_agent_trace (query uuid : String)
    (data_runner search_runner : Runner) :
    Except Unit (Option String) × List Action :=
  let user_id := "webapp-user"
  let session_id := uuid
  let r := orchestrator_trace query data_runner search_runner user_id session_id
  (r.fst, Action.create_session APP_NAME user_id session_id :: r.snd.map Action.invoke)

/-- Concrete runner ignoring its arguments and yielding a fixed stream. -/
def const_runner (events : List Event) : Runner := fun _ _ _ => events

/-- A final event carrying a single text part. -/
def ev_text (t : String) : Event := ⟨some ⟨"model", [⟨some t⟩]⟩, true⟩

/-- The instrumented orchestrator computes the same result as the plain one. -/
theorem orchestrator_trace_fst (q : String) (dr sr : Runner) (u s : String) :
    (orchestrator_trace q dr sr u s).fst = orchestrator q dr sr u s := by
  unfold orchestrator_trace orchestrator
  cases call_agent_async q dr u s with
  | none => rfl
  | some a =>
    by_cases h : pyIn NO_DATA_FOUND a <;> simp [h]

/-- The instrumented entry point computes the same result as the plain one. -/
theorem call_agent_trace_fst (q uuid : String) (dr sr : Runner) :
    (call_agent_trace q uuid dr sr).fst = call_agent q uuid dr sr := by
  unfold call_agent_trace call_agent
  exact orchestrator_trace_fst q dr sr "webapp-user" uuid

/-- The loop leaves its accumulator untouched on a stream with no final
event. -/
theorem final_response_loop_all_not_final (i : Option String) (l : List Event)
    (h : ∀ e ∈ l, e.is_final_response = false) :
    final_response_loop i l = i := by
  induction l with
  | nil => rfl
  | cons e rest ih =>
    have he : e.is_final_response = false := h e (by simp)
    simp only [final_response_loop, he, Bool.false_eq_true, if_false]
    exact ih fun x hx => h x (by simp [hx])

/-- The loop skips a prefix of non-final events. -/
theorem final_response_loop_skip_not_final (i : Option String)
    (pre l : List Event) (h : ∀ e ∈ pre, e.is_final_response = false) :
    final_response_loop i (pre ++ l) = final_response_loop i l := by
  induction pre with
  | nil => rfl
  | cons e rest ih =>
    have he : e.is_final_response = false := h e (by simp)
    simp only [List.cons_append, final_response_loop, he, Bool.false_eq_true,
      if_false]
    exact ih fun x hx => h x (by simp [hx])

/-- The consumed prefix walks past non-final events. -/
theorem consumed_events_skip_not_final (pre l : List Event)
    (h : ∀ e ∈ pre, e.is_final_response = false) :
    consumed_events (pre ++ l) = pre ++ consumed_events l := by
  induction pre with
  | nil => rfl
  | cons e rest ih =>
    have he : e.is_final_response = false := h e (by simp)
    simp only [List.cons_append, consumed_events, he, Bool.false_eq_true,
      if_false, List.cons.injEq, true_and]
    exact ih fun x hx => h x (by simp [hx])

/-- Claim C1: for every query and every Data-Agent answer that does not
contain the substring `NO_DATA_FOUND`, the orchestrator returns exactly that
answer, unchanged, and the Search-Agent is never invoked on that call. -/
theorem data_answer_returned_verbatim (q u s : String) (dr sr : Runner)
    (A : String) (hA : call_agent_async q dr u s = some A)
    (hns : pyIn NO_DATA_FOUND A = false) :
    orchestrator q dr sr u s = Except.ok (some A) ∧
    ∀ inv ∈ (orchestrator_trace q dr sr u s).snd,
      inv.agent ≠ AgentKind.search := by
  constructor
  · simp [orchestrator, hA, hns]
  · intro inv hinv
    simp only [orchestrator_trace, hA, hns, Bool.false_eq_true, if_false,
      List.mem_singleton] at hinv
    simp [hinv]

/-- Witness for C1 on the spec's scenario: a genuine data answer is passed
through and no search invocation appears in the trace. -/
theorem data_answer_returned_verbatim_witness :
    orchestrator "How many students enrolled in 2022?"
        (const_runner [ev_text "1,204 students enrolled in 2022."])
        (const_runner []) "webapp-user" "sid-1" =
      Except.ok (some "1,204 students enrolled in 2022.") ∧
    ∀ inv ∈ (orchestrator_trace "How many students enrolled in 2022?"
        (const_runner [ev_text "1,204 students enrolled in 2022."])
        (const_runner []) "webapp-user" "sid-1").snd,
      inv.agent ≠ AgentKind.search :=
  data_answer_returned_verbatim _ _ _ _ _ _ rfl (by decide)

/-- Claim C2: whenever the Data-Agent's answer contains the substring
`NO_DATA_FOUND`, the orchestrator invokes the Search-Agent with the same
original query under the same user and session identifiers, returns the
Search-Agent's answer as the final result, and the Data-Agent's raw answer
is discarded (the result is exactly the Search-Agent's answer, whatever the
data answer was). -/
theorem sentinel_escalates_to_search (q u s : String) (dr sr : Runner)
    (A : String) (hA : call_agent_async q dr u s = some A)
    (hs : pyIn NO_DATA_FOUND A = true) :
    orchestrator q dr sr u s = Except.ok (call_agent_async q sr u s) ∧
    (orchestrator_trace q dr sr u s).snd =
      [⟨AgentKind.data, q, u, s⟩, ⟨AgentKind.search, q, u, s⟩] := by
  constructor
  · simp [orchestrator, hA, hs]
  · simp [orchestrator_trace, hA, hs]

/-- Witness for C2 on the spec's scenario: `NO_DATA_FOUND` escalates and the
search answer is returned. -/
theorem sentinel_escalates_to_search_witness :
    orchestrator "What is the capital of France?"
        (const_runner [ev_text "NO_DATA_FOUND"])
        (const_runner [ev_text "Paris is the capital of France."])
        "webapp-user" "sid-2" =
      Except.ok (call_agent_async "What is the capital of France?"
        (const_runner [ev_text "Paris is the capital of France."])
        "webapp-user" "sid-2") ∧
    (orchestrator_trace "What is the capital of France?"
        (const_runner [ev_text "NO_DATA_FOUND"])
        (const_runner [ev_text "Paris is the capital of France."])
        "webapp-user" "sid-2").snd =
      [⟨AgentKind.data, "What is the capital of France?", "webapp-user",
        "sid-2"⟩,
       ⟨AgentKind.search, "What is the capital of France?", "webapp-user",
        "sid-2"⟩] :=
  sentinel_escalates_to_search _ _ _ _ _ _ rfl (by decide)

/-- Claim C3: in every orchestration call the Search-Agent is invoked zero
or one times, never more, and the Search-Agent's answer is never itself
subject to a further fallback or sentinel check: an escalated call returns
the search answer verbatim, for every search answer `B` (in particular one
containing `NO_DATA_FOUND` itself). -/
theorem search_invoked_at_most_once (q u s : String) (dr sr : Runner) :
    (orchestrator_trace q dr sr u s).snd.countP
        (fun inv => inv.agent == AgentKind.search) ≤ 1 ∧
    ∀ A B : String, call_agent_async q dr u s = some A →
      pyIn NO_DATA_FOUND A = true →
      call_agent_async q sr u s = some B →
      orchestrator q dr sr u s = Except.ok (some B) := by
  constructor
  · unfold orchestrator_trace
    cases call_agent_async q dr u s with
    | none => simp [List.countP_cons, List.countP_nil]
    | some a =>
      by_cases h : pyIn NO_DATA_FOUND a <;>
        simp [h, List.countP_cons, List.countP_nil]
  · intro A B hA hs hB
    simp [orchestrator, hA, hs, hB]

/-- Witness for C3: even a search answer that itself contains the sentinel
is returned as the final result, with exactly one search invocation. -/
theorem search_invoked_at_most_once_witness :
    (orchestrator_trace "q" (const_runner [ev_text "NO_DATA_FOUND"])
        (const_runner [ev_text "The web also says NO_DATA_FOUND."])
        "u" "s").snd.countP (fun inv => inv.agent == AgentKind.search) ≤ 1 ∧
    orchestrator "q" (const_runner [ev_text "NO_DATA_FOUND"])
        (const_runner [ev_text "The web also says NO_DATA_FOUND."]) "u" "s" =
      Except.ok (some "The web also says NO_DATA_FOUND.") := by
  have h := search_invoked_at_most_once "q" "u" "s"
    (const_runner [ev_text "NO_DATA_FOUND"])
    (const_runner [ev_text "The web also says NO_DATA_FOUND."])
  exact ⟨h.1, h.2 "NO_DATA_FOUND" "The web also says NO_DATA_FOUND."
    rfl (by decide) rfl⟩

/-- Claim C4: when the backend event stream yields zero final events, the
invocation adapter returns the fixed placeholder string — an actual string
(not the error-modelling `none`) and not the empty string. -/
theorem no_final_event_gives_placeholder (q u s : String) (r : Runner)
    (h : ∀ e ∈ r u s ⟨"user", [⟨some q⟩]⟩, e.is_final_response = false) :
    call_agent_async q r u s = some no_final_default ∧
    no_final_default ≠ "" := by
  refine ⟨?_, by decide⟩
  unfold call_agent_async
  exact final_response_loop_all_not_final _ _ h

/-- Witness for C4: a stream of two non-final events yields the
placeholder. -/
theorem no_final_event_gives_placeholder_witness :
    call_agent_async "q" (const_runner [⟨none, false⟩,
        ⟨some ⟨"model", [⟨some "thinking"⟩]⟩, false⟩]) "u" "s" =
      some no_final_default ∧
    no_final_default ≠ "" :=
  no_final_event_gives_placeholder "q" "u" "s" _ (by decide)

/-- Claim C5: for a stream containing a final event, the adapter consumes
exactly the events up to and including the first final one — events after it
are never consumed — and, when that event carries content with a nonempty
parts list, the adapter returns that event's first part's text verbatim. -/
theorem first_final_event_decides_answer (q u s : String) (r : Runner)
    (pre post : List Event) (e : Event)
    (hstream : r u s ⟨"user", [⟨some q⟩]⟩ = pre ++ e :: post)
    (hpre : ∀ x ∈ pre, x.is_final_response = false)
    (hfin : e.is_final_response = true) :
    call_agent_async_consumed q r u s = pre ++ [e] ∧
    ∀ c p ps, e.content = some c → c.parts = p :: ps →
      call_agent_async q r u s = p.text := by
  constructor
  · simp only [call_agent_async_consumed]
    rw [hstream, consumed_events_skip_not_final pre _ hpre]
    simp [consumed_events, hfin]
  · intro c p ps hc hp
    simp only [call_agent_async]
    rw [hstream, final_response_loop_skip_not_final _ pre _ hpre]
    simp [final_response_loop, hfin, hc, hp]

/-- Witness for C5: with one non-final event, then a final text event, then
a trailing event, the consumed prefix stops at the final event and its text
is the answer. -/
theorem first_final_event_decides_answer_witness :
    call_agent_async_consumed "q"
        (const_runner [⟨none, false⟩, ev_text "hello",
          ev_text "never read"]) "u" "s" =
      [⟨none, false⟩, ev_text "hello"] ∧
    call_agent_async "q"
        (const_runner [⟨none, false⟩, ev_text "hello",
          ev_text "never read"]) "u" "s" = some "hello" := by
  have h := first_final_event_decides_answer "q" "u" "s"
    (const_runner [⟨none, false⟩, ev_text "hello", ev_text "never read"])
    [⟨none, false⟩] [ev_text "never read"] (ev_text "hello")
    rfl (by decide) rfl
  exact ⟨h.1, h.2 ⟨"model", [⟨some "hello"⟩]⟩ ⟨some "hello"⟩ [] rfl rfl⟩

/-- Claim C10: when the first final event of the stream carries no content
at all, or content with an empty parts list, the adapter returns the fixed
placeholder string rather than any text of that event. -/
theorem contentless_final_gives_placeholder (q u s : String) (r : Runner)
    (pre post : List Event) (e : Event)
    (hstream : r u s ⟨"user", [⟨some q⟩]⟩ = pre ++ e :: post)
    (hpre : ∀ x ∈ pre, x.is_final_response = false)
    (hfin : e.is_final_response = true)
    (hempty : e.content = none ∨ ∃ c, e.content = some c ∧ c.parts = []) :
    call_agent_async q r u s = some no_final_default := by
  simp only [call_agent_async]
  rw [hstream, final_response_loop_skip_not_final _ pre _ hpre]
  rcases hempty with hc | ⟨c, hc, hp⟩
  · simp [final_response_loop, hfin, hc]
  · simp [final_response_loop, hfin, hc, hp]

/-- Witness for C10: a contentless final event yields the placeholder. -/
theorem contentless_final_gives_placeholder_witness :
    call_agent_async "q" (const_runner [⟨none, true⟩]) "u" "s" =
      some no_final_default :=
  contentless_final_gives_placeholder "q" "u" "s"
    (const_runner [⟨none, true⟩]) [] [] ⟨none, true⟩ rfl (by decide) rfl
    (Or.inl rfl)

/-- A backend whose final event's first part carries `text=None`: a
constructible `google.genai` value (`Part` text is `Optional[str]`).  On it
`call_agent_async` returns Python `None`. -/
def textless_final_runner : Runner :=
  fun _ _ _ => [⟨some ⟨"model", [⟨none⟩]⟩, true⟩]

/-- Claim C6, counterexample: when the Data-Agent's final event carries a
first part with null text, `call_agent_async` returns `None` and the
orchestrator's membership test `"NO_DATA_FOUND" in data_response` raises a
`TypeError` (modelled `Except.error ()`), so the entry point surfaces an
exception rather than a string. -/
theorem caller_exception_counterexample :
    call_agent "any question" "session-uuid-1" textless_final_runner
      (const_runner []) = Except.error () := rfl

/-- Claim C6 (amended): whenever the Data-Agent invocation yields an actual
string and, in case its answer contains `NO_DATA_FOUND`, the Search-Agent
invocation also yields an actual string, the entry point returns a string to
the caller — no exception, and escalation is not reported as a distinct
status, being visible only through the response content. -/
theorem caller_receives_string (q uuid : String) (dr sr : Runner)
    (A : String) (hA : call_agent_async q dr "webapp-user" uuid = some A)
    (hB : pyIn NO_DATA_FOUND A = true →
      ∃ B : String, call_agent_async q sr "webapp-user" uuid = some B) :
    ∃ res : String, call_agent q uuid dr sr = Except.ok (some res) := by
  simp only [call_agent, orchestrator]
  rw [hA]
  by_cases h : pyIn NO_DATA_FOUND A
  · obtain ⟨B, hB'⟩ := hB h
    exact ⟨B, by simp [h, hB']⟩
  · exact ⟨A, by simp [h]⟩

/-- Witness for the amended C6: a sentinel answer followed by a proper
search answer produces a string result. -/
theorem caller_receives_string_witness :
    ∃ res : String,
      call_agent "q" "uuid-7" (const_runner [ev_text "NO_DATA_FOUND"])
        (const_runner [ev_text "An answer from the web."]) =
      Except.ok (some res) :=
  caller_receives_string "q" "uuid-7"
    (const_runner [ev_text "NO_DATA_FOUND"])
    (const_runner [ev_text "An answer from the web."])
    "NO_DATA_FOUND" rfl (fun _ => ⟨"An answer from the web.", rfl⟩)

/-- The orchestrator's invocation trace takes exactly one of two shapes:
the data invocation alone, or the data invocation followed by the search
invocation, always with the given query, user and session. -/
theorem orchestrator_trace_snd_cases (q u s : String) (dr sr : Runner) :
    (orchestrator_trace q dr sr u s).snd = [⟨AgentKind.data, q, u, s⟩] ∨
    (orchestrator_trace q dr sr u s).snd =
      [⟨AgentKind.data, q, u, s⟩, ⟨AgentKind.search, q, u, s⟩] := by
  unfold orchestrator_trace
  cases call_agent_async q dr u s with
  | none => exact Or.inl rfl
  | some a => by_cases h : pyIn NO_DATA_FOUND a <;> simp [h]

/-- Claim C7: every top-level call performs exactly one session creation,
with the fixed pseudo-user `"webapp-user"`, the application name, and the
freshly generated identifier, and it happens before any agent invocation;
every invocation of the call runs under that same fresh session. -/
theorem fresh_session_created_first (q uuid : String) (dr sr : Runner) :
    ∃ invs : List Invocation,
      (call_agent_trace q uuid dr sr).snd =
        Action.create_session APP_NAME "webapp-user" uuid ::
          invs.map Action.invoke ∧
      (∀ inv ∈ invs, inv.user_id = "webapp-user" ∧ inv.session_id = uuid) ∧
      (call_agent_trace q uuid dr sr).snd.countP
        (fun a => match a with
          | Action.create_session _ _ _ => true
          | Action.invoke _ => false) = 1 := by
  refine ⟨(orchestrator_trace q dr sr "webapp-user" uuid).snd, rfl, ?_, ?_⟩
  · intro inv hinv
    rcases orchestrator_trace_snd_cases q "webapp-user" uuid dr sr with
      hcase | hcase <;> rw [hcase] at hinv <;> simp at hinv
    · simp [hinv]
    · rcases hinv with h1 | h1 <;> simp [h1]
  · show (Action.create_session APP_NAME "webapp-user" uuid ::
      ((orchestrator_trace q dr sr "webapp-user" uuid).snd.map
        Action.invoke)).countP _ = 1
    rw [List.countP_cons_of_pos _ _ (by rfl)]
    have hz : ∀ l : List Invocation,
        (l.map Action.invoke).countP
          (fun a => match a with
            | Action.create_session _ _ _ => true
            | Action.invoke _ => false) = 0 := by
      intro l
      induction l with
      | nil => rfl
      | cons x xs ih =>
        rw [List.map_cons, List.countP_cons_of_neg _ _ (by simp)]
        exact ih
    rw [hz]

/-- Witness for C7 at a concrete call. -/
theorem fresh_session_created_first_witness :
    ∃ invs : List Invocation,
      (call_agent_trace "q" "uuid-9" (const_runner [ev_text "fine"])
          (const_runner [])).snd =
        Action.create_session APP_NAME "webapp-user" "uuid-9" ::
          invs.map Action.invoke ∧
      (∀ inv ∈ invs,
        inv.user_id = "webapp-user" ∧ inv.session_id = "uuid-9") ∧
      (call_agent_trace "q" "uuid-9" (const_runner [ev_text "fine"])
          (const_runner [])).snd.countP
        (fun a => match a with
          | Action.create_session _ _ _ => true
          | Action.invoke _ => false) = 1 :=
  fresh_session_created_first "q" "uuid-9" (const_runner [ev_text "fine"])
    (const_runner [])

/-- Claim C8: within one orchestration call the invocations are strictly
sequential — the trace starts with the Data-Agent invocation, and a
Search-Agent invocation appears only after it, only when the Data-Agent's
answer is already in hand and contains the sentinel — and both invocations
carry the same user and session identifiers. -/
theorem invocations_sequential_one_session (q u s : String)
    (dr sr : Runner) :
    ∃ rest : List Invocation,
      (orchestrator_trace q dr sr u s).snd =
        ⟨AgentKind.data, q, u, s⟩ :: rest ∧
      (rest = [] ∨
        (rest = [⟨AgentKind.search, q, u, s⟩] ∧
          ∃ A, call_agent_async q dr u s = some A ∧
            pyIn NO_DATA_FOUND A = true)) := by
  unfold orchestrator_trace
  cases hA : call_agent_async q dr u s with
  | none => exact ⟨[], rfl, Or.inl rfl⟩
  | some a =>
    by_cases h : pyIn NO_DATA_FOUND a
    · exact ⟨[⟨AgentKind.search, q, u, s⟩], by simp [h],
        Or.inr ⟨rfl, a, rfl, h⟩⟩
    · exact ⟨[], by simp [h], Or.inl rfl⟩

/-- Witness for C8 at a concrete escalating call. -/
theorem invocations_sequential_one_session_witness :
    ∃ rest : List Invocation,
      (orchestrator_trace "q" (const_runner [ev_text "NO_DATA_FOUND"])
          (const_runner [ev_text "web says hi"]) "u" "s").snd =
        ⟨AgentKind.data, "q", "u", "s"⟩ :: rest ∧
      (rest = [] ∨
        (rest = [⟨AgentKind.search, "q", "u", "s"⟩] ∧
          ∃ A, call_agent_async "q" (const_runner [ev_text "NO_DATA_FOUND"])
              "u" "s" = some A ∧ pyIn NO_DATA_FOUND A = true)) :=
  invocations_sequential_one_session "q" "u" "s"
    (const_runner [ev_text "NO_DATA_FOUND"])
    (const_runner [ev_text "web says hi"])

/-- The process after module load: either exited because the setup block
failed, or running with the two runners built after the `try` block. -/
inductive ProcessState
  | exited
  | running (data_runner search_runner : Runner)

/-- The module-level setup `try` block, modelled by the combined outcome of
its external calls (bucket creation, Vertex AI init, credential lookup, the
`SELECT 1` BigQuery probe).  Any exception raised inside the block reaches
the `except` branch, which prints the fatal message and calls `exit()`;
only a successful setup reaches the code below the block that builds the
agents and runners. -/
def module_load (setup : Except String Unit) (dr sr : Runner) :
    ProcessState :=
  match setup with
  | Except.error _ => ProcessState.exited
  | Except.ok _ => ProcessState.running dr sr

/-- The actions a top-level `call_agent` performs in a given process state:
an exited process performs none (no session creation, no invocation). -/
def process_call_actions (st : ProcessState) (q uuid : String) :
    List Action :=
  match st with
  | ProcessState.exited => []
  | ProcessState.running dr sr => (call_agent_trace q uuid dr sr).snd

/-- Claim C9: a failed setup step terminates the process — the module load
ends in the exited state, no degraded running state exists for it, and no
agent invocation (indeed no action at all) can ever run after a failed
setup; conversely any call that performs an action is in a fully running
state. -/
theorem setup_failure_fatal (e : String) (dr sr : Runner)
    (q uuid : String) :
    module_load (Except.error e) dr sr = ProcessState.exited ∧
    process_call_actions (module_load (Except.error e) dr sr) q uuid = [] ∧
    ∀ st : ProcessState, ∀ q2 u2 : String, ∀ a : Action,
      a ∈ process_call_actions st q2 u2 →
      ∃ dr2 sr2, st = ProcessState.running dr2 sr2 := by
  refine ⟨rfl, rfl, ?_⟩
  intro st q2 u2 a ha
  cases st with
  | exited => simp [process_call_actions] at ha
  | running dr2 sr2 => exact ⟨dr2, sr2, rfl⟩

/-- Witness for C9 at a concrete failed setup. -/
theorem setup_failure_fatal_witness :
    module_load (Except.error "credentials unavailable")
        (const_runner []) (const_runner []) = ProcessState.exited ∧
    process_call_actions
        (module_load (Except.error "credentials unavailable")
          (const_runner []) (const_runner [])) "q" "uuid-3" = [] ∧
    ∀ st : ProcessState, ∀ q2 u2 : String, ∀ a : Action,
      a ∈ process_call_actions st q2 u2 →
      ∃ dr2 sr2, st = ProcessState.running dr2 sr2 :=
  setup_failure_fatal "credentials unavailable" (const_runner [])
    (const_runner []) "q" "uuid-3"

end EducationAgent
